import Mathlib

/-!
Verification of the overlay-lifecycle and bearing-geometry module of the
SurveryingWebApp Leaflet adapters.

Two source files are embedded:

* `leafletCrimesWrapper.js` (second part, "Leaflet Wrapper for Blazor
  Integration"): the overlay registry with tracking lists (`markers`,
  `circles`, `polygons`, `polylines`, `geoJsonLayers`), the `!map` guards,
  `clearMap`, the validating `fitBounds`, `dispose`, the drawing tools and
  the drawn-items GeoJSON round trip, plus `calculateBearing` from its
  first part.  Embedded in namespace `LeafletCrimesWrapper`.
* `leafletWrapper.js`: the draw-tools controller that clears the previous
  `L.Draw.Event.CREATED` handler before installing a new one, and
  `addGeoJsonWithPopup`, whose per-feature popup is built with JS
  `String.replace` (first occurrence only).  Embedded in namespace
  `LeafletWrapper`.

The widget library (Leaflet) is modelled as the capability interface the
adapters call: a map object holding the ids of the layers currently on it,
the current view, and the number of registered draw-created handlers.
Layer handles are natural-number ids drawn from a counter.  Numbers from
the host are rationals; bounds arguments may carry arbitrary JS values
(numbers, NaN, strings), modelled by `JVal`.
-/

set_option linter.unusedVariables false

/-- JS runtime values that can reach the `fitBounds` validation: finite
numbers, NaN, and strings.  Other JS values behave like one of these for
the checks involved. -/
inductive JVal where
  | num : ℚ → JVal
  | nan : JVal
  | str : String → JVal
deriving DecidableEq

/-- JS strict equality on the modelled values.  NaN is not strictly equal
to anything, itself included; numbers and strings compare by value; there
is no cross-type coercion under the strict operator. -/
def jsStrictEq : JVal → JVal → Bool
  | JVal.num a, JVal.num b => a == b
  | JVal.str a, JVal.str b => a == b
  | _, _ => false

/-- Value of a non-empty decimal digit string; none when empty or when any
character is not a digit. -/
def decDigitsVal (cs : List Char) : Option Nat :=
  match cs with
  | [] => none
  | _ =>
    cs.foldl
      (fun acc c =>
        match acc with
        | none => none
        | some n => if c.isDigit then some (n * 10 + (c.toNat - 48)) else none)
      (some 0)

/-- JS ToNumber on a string, restricted to optional-sign decimal integer
literals (and the empty string, which coerces to 0); any other string —
in particular every non-numeric string — coerces to NaN (none).  This
agrees with JS on every string literal used in this development. -/
def jsStringToNumber (cs : List Char) : Option ℚ :=
  match cs with
  | [] => some 0
  | c :: rest =>
    if c = Char.ofNat 45 then (decDigitsVal rest).map (fun n => -(n : ℚ))
    else (decDigitsVal cs).map (fun n => (n : ℚ))

/-- JS numeric coercion (ToNumber) on the modelled values: numbers are
themselves, NaN has no finite value, strings go through
`jsStringToNumber`. -/
def jsToNumber : JVal → Option ℚ
  | JVal.num q => some q
  | JVal.nan => none
  | JVal.str s => jsStringToNumber s.data

/-- JS `isNaN(v)`: true exactly when the numeric coercion of `v` is NaN. -/
def jsIsNaN (v : JVal) : Bool := (jsToNumber v).isNone

/-- An element of a JS bounds argument: either a nested array of values or
a non-array value (which fails `Array.isArray`). -/
inductive BElem where
  | arr : List JVal → BElem
  | val : JVal → BElem
deriving DecidableEq

/-- The view state of the Leaflet map: either a centre and zoom set by
`setView`, or the result of a `fitBounds` widget call. -/
inductive JView where
  | viewAt : JVal × JVal → ℚ → JView
  | fittedTo : (JVal × JVal) × (JVal × JVal) → JView
deriving DecidableEq

deriving instance DecidableEq for Except

namespace LeafletCrimesWrapper

/-- The Leaflet map object as the adapter observes it: the id of the base
tile layer added by `createMap`, the ids of all layers currently on the
map, the number of handlers registered for `L.Draw.Event.CREATED`, and the
current view. -/
structure LMapObj where
  baseTile : Nat
  layers : List Nat
  createdSubs : Nat
  view : JView
deriving DecidableEq

/-- The module-level state of `leafletCrimesWrapper.js` (second part):
the map (null until `createMap`), the five tracking lists, the drawn-items
group (null until `initDrawTools`, then its members as (layerId, geometry)
pairs), the draw and mini-map controls, the disposed flag, a fresh-id
counter for widget-created handles, and a count of `console.error` calls. -/
structure CState where
  map : Option LMapObj
  markers : List Nat
  circles : List Nat
  polygons : List Nat
  polylines : List Nat
  geoJsonLayers : List Nat
  drawnItems : Option (List (Nat × Nat))
  drawControl : Bool
  miniMapControl : Bool
  isDisposed : Bool
  nextId : Nat
  consoleErrors : Nat
deriving DecidableEq

/-- Module load: `map = null`, empty lists, nothing drawn, not disposed. -/
def initState : CState :=
  { map := none, markers := [], circles := [], polygons := [], polylines := [],
    geoJsonLayers := [], drawnItems := none, drawControl := false,
    miniMapControl := false, isDisposed := false, nextId := 0, consoleErrors := 0 }

/-- Effect of a `console.error(...)` call. -/
def logError (s : CState) : CState := { s with consoleErrors := s.consoleErrors + 1 }

/-- All handles currently held by the five tracking lists, in the order
`clearMap` and `dispose` iterate them. -/
def trackedIds (s : CState) : List Nat :=
  s.markers ++ s.circles ++ s.polygons ++ s.polylines ++ s.geoJsonLayers

/-- `createMap(elementId, lat, lng, zoom)`: refused with a warning when
disposed; otherwise any existing map is removed and a fresh map is created
with the OpenStreetMap tile layer added to it. -/
def createMap (elementId : String) (lat lng zoom : ℚ) (s : CState) : CState :=
  if s.isDisposed then s
  else
    { s with
        map := some
          ({ baseTile := s.nextId, layers := [s.nextId], createdSubs := 0
             view := JView.viewAt (JVal.num lat, JVal.num lng) zoom })
        nextId := s.nextId + 1 }

/-- The Leaflet `.addTo(map)` primitive: throws a TypeError when the map
reference is null, otherwise puts the layer on the map. -/
def lAddTo (m : Option LMapObj) (layerId : Nat) : Except String LMapObj :=
  match m with
  | none => Except.error "TypeError: cannot call addLayer on null"
  | some mo => Except.ok { mo with layers := layerId :: mo.layers }

/-- `addMarker(lat, lng, popupText)`: no-op returning no handle when the
map does not exist; otherwise creates the marker on the map, binds the
popup when given, pushes the handle onto `markers` and returns it. -/
def addMarker (lat lng : ℚ) (popupText : Option String) (s : CState) :
    Except String (Option Nat × CState) :=
  match s.map with
  | none => Except.ok (none, s)
  | some _ =>
    match lAddTo s.map s.nextId with
    | Except.error e => Except.error e
    | Except.ok m2 =>
      Except.ok (some s.nextId,
        { s with
            map := some m2
            markers := s.markers ++ [s.nextId]
            nextId := s.nextId + 1 })

/-- `addCircle(lat, lng, radius, options)`: guarded like `addMarker`;
pushes onto `circles`.  Style options do not affect registry state. -/
def addCircle (lat lng radius : ℚ) (options : List (String × ℚ)) (s : CState) :
    Except String (Option Nat × CState) :=
  match s.map with
  | none => Except.ok (none, s)
  | some _ =>
    match lAddTo s.map s.nextId with
    | Except.error e => Except.error e
    | Except.ok m2 =>
      Except.ok (some s.nextId,
        { s with
            map := some m2
            circles := s.circles ++ [s.nextId]
            nextId := s.nextId + 1 })

/-- `addPolygon(latLngs, options)`: guarded; pushes onto `polygons`. -/
def addPolygon (latLngs : List (ℚ × ℚ)) (options : List (String × ℚ)) (s : CState) :
    Except String (Option Nat × CState) :=
  match s.map with
  | none => Except.ok (none, s)
  | some _ =>
    match lAddTo s.map s.nextId with
    | Except.error e => Except.error e
    | Except.ok m2 =>
      Except.ok (some s.nextId,
        { s with
            map := some m2
            polygons := s.polygons ++ [s.nextId]
            nextId := s.nextId + 1 })

/-- `addPolyline(latLngs, options)`: guarded; pushes onto `polylines`. -/
def addPolyline (latLngs : List (ℚ × ℚ)) (options : List (String × ℚ)) (s : CState) :
    Except String (Option Nat × CState) :=
  match s.map with
  | none => Except.ok (none, s)
  | some _ =>
    match lAddTo s.map s.nextId with
    | Except.error e => Except.error e
    | Except.ok m2 =>
      Except.ok (some s.nextId,
        { s with
            map := some m2
            polylines := s.polylines ++ [s.nextId]
            nextId := s.nextId + 1 })

/-- `addGeoJson(geoJson, options)`: guarded; renders the (opaque) GeoJSON
payload as one layer and pushes onto `geoJsonLayers`. -/
def addGeoJson (geoJson : Nat) (options : List (String × ℚ)) (s : CState) :
    Except String (Option Nat × CState) :=
  match s.map with
  | none => Except.ok (none, s)
  | some _ =>
    match lAddTo s.map s.nextId with
    | Except.error e => Except.error e
    | Except.ok m2 =>
      Except.ok (some s.nextId,
        { s with
            map := some m2
            geoJsonLayers := s.geoJsonLayers ++ [s.nextId]
            nextId := s.nextId + 1 })

/-- `map.removeLayer(layer)`: detaches the layer from the map; a no-op at
widget level when the layer is not on the map. -/
def removeLayerId (layers : List Nat) (layerId : Nat) : List Nat :=
  layers.filter (fun x => x != layerId)

/-- Sequential `forEach(layer => map.removeLayer(layer))` over a list of
tracked handles. -/
def removeAllLayers (layers : List Nat) (ids : List Nat) : List Nat :=
  ids.foldl removeLayerId layers

/-- `clearMap()`: no-op without a map; otherwise removes every handle in
the five tracking lists from the map (the base tile layer is never in a
tracking list) and resets the lists to empty. -/
def clearMap (s : CState) : Except String (Option Nat × CState) :=
  match s.map with
  | none => Except.ok (none, s)
  | some m =>
    Except.ok (none,
      { s with
          map := some ({ m with layers := removeAllLayers m.layers (trackedIds s) })
          markers := []
          circles := []
          polygons := []
          polylines := []
          geoJsonLayers := [] })

/-- `setView(lat, lng, zoom)`: guarded; recenters the map. -/
def setView (lat lng zoom : ℚ) (s : CState) : Except String (Option Nat × CState) :=
  match s.map with
  | none => Except.ok (none, s)
  | some m =>
    let m2 := { m with view := JView.viewAt (JVal.num lat, JVal.num lng) zoom }
    Except.ok (none, { s with map := some m2 })

/-- The raw `map.setView([a, b], zoom)` call as issued from inside
`fitBounds`, where the centre components are whatever values the bounds
argument carried. -/
def mapSetViewRaw (s : CState) (center : JVal × JVal) (zoom : ℚ) : CState :=
  match s.map with
  | none => s
  | some m => { s with map := some ({ m with view := JView.viewAt center zoom }) }

/-- The shape test of `fitBounds`: `bounds` is non-null, has length 2, and
both elements are arrays of length 2 (the conjunction of the five negated
checks in the source). -/
def boundsShapeValid (bounds : Option (List BElem)) : Bool :=
  match bounds with
  | some [BElem.arr [_, _], BElem.arr [_, _]] => true
  | _ => false

/-- `fitBounds(bounds)`: guarded on the map; rejects bounds failing the
shape test with `console.error` and no further change; then, before the
numeric check, recenters at zoom 10 when the two corners are strictly
equal component-wise; then rejects bounds with a NaN coordinate; otherwise
calls the widget `map.fitBounds` (modelled as always succeeding, so the
catch-block fallback is unreachable). -/
def fitBounds (bounds : Option (List BElem)) (s : CState) :
    Except String (Option Nat × CState) :=
  match s.map with
  | none => Except.ok (none, s)
  | some m =>
    match bounds with
    | some [BElem.arr [minLat, minLng], BElem.arr [maxLat, maxLng]] =>
      if jsStrictEq minLat maxLat && jsStrictEq minLng maxLng then
        Except.ok (none, mapSetViewRaw s (minLat, minLng) 10)
      else if jsIsNaN minLat || jsIsNaN minLng || jsIsNaN maxLat || jsIsNaN maxLng then
        Except.ok (none, logError s)
      else
        let m2 := { m with view := JView.fittedTo ((minLat, minLng), (maxLat, maxLng)) }
        Except.ok (none, { s with map := some m2 })
    | _ => Except.ok (none, logError s)

/-- `L.FeatureGroup.addLayer(layer)`: the group stores layers keyed by the
widget-assigned id, so adding a layer whose id is already present leaves
the group unchanged. -/
def fgAddLayer (g : List (Nat × Nat)) (layer : Nat × Nat) : List (Nat × Nat) :=
  if g.any (fun x => x.fst == layer.fst) then g else g ++ [layer]

/-- `initDrawTools(lineColor, fillColor, lineWeight)`: guarded on the map
(and on the draw library being loaded, which is assumed here).  Creates a
fresh drawn-items group and adds it to the map (the previous group, if
any, is not removed), installs a new draw control, and registers ANOTHER
`L.Draw.Event.CREATED` handler: this function contains no `map.off`, so
previously registered handlers stay active.  Style parameters configure
the control only. -/
def initDrawTools (lineColor fillColor : String) (lineWeight : ℚ) (s : CState) : CState :=
  match s.map with
  | none => s
  | some m =>
    let m2 := { m with
                  layers := s.nextId :: m.layers
                  createdSubs := m.createdSubs + 1 }
    { s with map := some m2, drawnItems := some [], drawControl := true
             nextId := s.nextId + 1 }

/-- `initDrawToolsAdvanced(options)`: same registry effect as
`initDrawTools` — fresh group, new control, one more CREATED handler and
no `map.off`; the option merging configures the control only. -/
def initDrawToolsAdvanced (options : Nat) (s : CState) : CState :=
  match s.map with
  | none => s
  | some m =>
    let m2 := { m with
                  layers := s.nextId :: m.layers
                  createdSubs := m.createdSubs + 1 }
    { s with map := some m2, drawnItems := some [], drawControl := true
             nextId := s.nextId + 1 }

/-- Number of active `L.Draw.Event.CREATED` handlers (0 without a map). -/
def createdSubsCount (s : CState) : Nat :=
  match s.map with
  | none => 0
  | some m => m.createdSubs

/-- A user finishes a drawing: the widget fires `L.Draw.Event.CREATED`
once, and every registered handler runs; each handler executes
`drawnItems.addLayer(e.layer)` against the current drawn-items group. -/
def fireCreated (layer : Nat × Nat) (s : CState) : CState :=
  match s.map with
  | none => s
  | some m =>
    match s.drawnItems with
    | none => s
    | some g =>
      { s with drawnItems := some (Nat.iterate (fun h => fgAddLayer h layer) m.createdSubs g) }

/-- `getDrawnGeoJson()`: null when the group does not exist, otherwise the
serialized features of the drawn-items group (the JSON stringify/parse
step of the host round trip is the identity on this payload). -/
def getDrawnGeoJson (s : CState) : Option (List Nat) :=
  match s.drawnItems with
  | none => none
  | some g => some (g.map Prod.snd)

/-- `L.geoJSON(data)`: builds one fresh layer per feature; the widget
assigns fresh ids starting at the given counter value. -/
def lGeoJSON (geoms : List Nat) (start : Nat) : List (Nat × Nat) :=
  match geoms with
  | [] => []
  | g :: gs => (start, g) :: lGeoJSON gs (start + 1)

/-- `addDrawnFromGeoJson(geoJson)`: no-op when the drawn-items group does
not exist; otherwise builds fresh layers from the features and adds each
to the group with `eachLayer(l => drawnItems.addLayer(l))`, merging
without clearing. -/
def addDrawnFromGeoJson (geoJson : List Nat) (s : CState) : CState :=
  match s.drawnItems with
  | none => s
  | some g =>
    let fresh := lGeoJSON geoJson s.nextId
    { s with drawnItems := some (fresh.foldl fgAddLayer g)
             nextId := s.nextId + geoJson.length }

/-- `dispose()`: sets the disposed flag; when a map exists, removes every
tracked layer from it (each call individually caught), removes the
controls, destroys the map (`map.remove(); map = null`, which discards the
map object together with its layers, handlers and view), and finally
resets all registry fields.  The whole body is inside try/catch, and no
modelled step can fail, so dispose never throws. -/
def dispose (s : CState) : CState :=
  match s.map with
  | some m =>
    let _removed := removeAllLayers m.layers (trackedIds s)
    { s with map := none, markers := [], circles := [], polygons := []
             polylines := [], geoJsonLayers := [], drawnItems := none
             drawControl := false, miniMapControl := false, isDisposed := true }
  | none =>
    { s with markers := [], circles := [], polygons := []
             polylines := [], geoJsonLayers := [], drawnItems := none
             drawControl := false, miniMapControl := false, isDisposed := true }

/-- The registry operations quantified over by the not-ready policy. -/
inductive Op where
  | opAddMarker : ℚ → ℚ → Option String → Op
  | opAddCircle : ℚ → ℚ → ℚ → List (String × ℚ) → Op
  | opAddPolygon : List (ℚ × ℚ) → List (String × ℚ) → Op
  | opAddPolyline : List (ℚ × ℚ) → List (String × ℚ) → Op
  | opAddGeoJson : Nat → List (String × ℚ) → Op
  | opClearMap : Op
  | opFitBounds : Option (List BElem) → Op
  | opSetView : ℚ → ℚ → ℚ → Op

/-- Dispatch one registry operation, returning the handle handed back to
the host (if any) and the successor state; `Except.error` marks a JS
exception escaping to the host. -/
def runOp (op : Op) (s : CState) : Except String (Option Nat × CState) :=
  match op with
  | Op.opAddMarker lat lng p => addMarker lat lng p s
  | Op.opAddCircle lat lng r o => addCircle lat lng r o s
  | Op.opAddPolygon pts o => addPolygon pts o s
  | Op.opAddPolyline pts o => addPolyline pts o s
  | Op.opAddGeoJson g o => addGeoJson g o s
  | Op.opClearMap => clearMap s
  | Op.opFitBounds b => fitBounds b s
  | Op.opSetView lat lng z => setView lat lng z s

/-- The add operations of the clear-map claim. -/
inductive AddOp where
  | marker : ℚ → ℚ → Option String → AddOp
  | circle : ℚ → ℚ → ℚ → List (String × ℚ) → AddOp
  | polygon : List (ℚ × ℚ) → List (String × ℚ) → AddOp
  | polyline : List (ℚ × ℚ) → List (String × ℚ) → AddOp
  | geoJson : Nat → List (String × ℚ) → AddOp

/-- Run one add operation, discarding the returned handle. -/
def applyAdd (op : AddOp) (s : CState) : Except String CState :=
  match op with
  | AddOp.marker lat lng p => Except.map Prod.snd (addMarker lat lng p s)
  | AddOp.circle lat lng r o => Except.map Prod.snd (addCircle lat lng r o s)
  | AddOp.polygon pts o => Except.map Prod.snd (addPolygon pts o s)
  | AddOp.polyline pts o => Except.map Prod.snd (addPolyline pts o s)
  | AddOp.geoJson g o => Except.map Prod.snd (addGeoJson g o s)

/-- Run a sequence of add operations in invocation order; a thrown
exception aborts the sequence. -/
def runAdds (s : CState) (ops : List AddOp) : Except String CState :=
  match ops with
  | [] => Except.ok s
  | op :: rest =>
    match applyAdd op s with
    | Except.ok s2 => runAdds s2 rest
    | Except.error e => Except.error e

/-- Registry invariant tying the base tile layer to the tracking lists:
the map exists, its base tile layer is on it, the base tile id is below
the fresh-id counter, and every tracked handle was allocated after the
base tile layer. -/
def Inv (s : CState) : Prop :=
  ∃ m, s.map = some m ∧ m.baseTile ∈ m.layers ∧ m.baseTile < s.nextId ∧
    ∀ id ∈ trackedIds s, m.baseTile < id

/-- The JS `%` operator (fmod): `a - b * trunc(a / b)`, truncation being
floor for a non-negative quotient and ceiling otherwise. -/
noncomputable def jsFmod (a b : ℝ) : ℝ :=
  if 0 ≤ a / b then a - b * (⌊a / b⌋ : ℝ) else a - b * (⌈a / b⌉ : ℝ)

/-- JS `Math.atan2(y, x)`: the argument of the point (x, y), in (-π, π],
with `atan2(0, 0) = 0`. -/
noncomputable def atan2 (y x : ℝ) : ℝ := Complex.arg ⟨x, y⟩

/-- `calculateBearing(fromLat, fromLng, toLat, toLng)`: the great-circle
initial-bearing formula followed by the JS normalization
`(θ * 180 / Math.PI + 360) % 360`, in idealized real arithmetic. -/
noncomputable def calculateBearing (fromLat fromLng toLat toLng : ℝ) : ℝ :=
  let phi1 := fromLat * Real.pi / 180
  let phi2 := toLat * Real.pi / 180
  let dlam := (toLng - fromLng) * Real.pi / 180
  let y := Real.sin dlam * Real.cos phi2
  let x := Real.cos phi1 * Real.sin phi2 - Real.sin phi1 * Real.cos phi2 * Real.cos dlam
  let theta := atan2 y x
  jsFmod (theta * 180 / Real.pi + 360) 360

end LeafletCrimesWrapper

namespace LeafletWrapper

/-- The module-level state of `leafletWrapper.js` relevant to the drawing
tools: the ids of layers on the (assumed created) map, the drawn-items
group and the id under which it sits on the map, the draw control and its
enabled flag, the number of `L.Draw.Event.CREATED` handlers on the map,
and the widget fresh-id counter. -/
structure WState where
  mapLayers : List Nat
  drawnItems : List (Nat × Nat)
  drawnItemsId : Nat
  drawControl : Bool
  drawEnabled : Bool
  createdSubs : Nat
  nextId : Nat
deriving DecidableEq

/-- Module load: `drawnItems = L.featureGroup()` exists but is not on the
map; no control, no handler.  The map (id 0 base tile) is assumed
created. -/
def initState : WState :=
  { mapLayers := [0], drawnItems := [], drawnItemsId := 1, drawControl := false
    drawEnabled := false, createdSubs := 0, nextId := 2 }

/-- `initDrawTools(lineColor, fillColor, lineWeight)`: removes the old
drawn-items group from the map, creates and adds a fresh one, replaces the
draw control, sets `drawEnabled`, and — crucially — runs
`map.off(L.Draw.Event.CREATED)` (dropping every previous handler) before
`map.on(...)`, so exactly one handler is installed. -/
def initDrawTools (lineColor fillColor : String) (lineWeight : ℚ) (w : WState) : WState :=
  let cleared := w.mapLayers.filter (fun x => x != w.drawnItemsId)
  { w with mapLayers := w.nextId :: cleared, drawnItems := [], drawnItemsId := w.nextId
           drawControl := true, drawEnabled := true, createdSubs := 0 + 1
           nextId := w.nextId + 1 }

/-- `initDrawToolsAdvanced(options)`: merges defaults with the caller
options (configuring the control only) and performs the same group,
control and handler replacement as `initDrawTools`, including the
`map.off` before `map.on`. -/
def initDrawToolsAdvanced (options : Nat) (w : WState) : WState :=
  let cleared := w.mapLayers.filter (fun x => x != w.drawnItemsId)
  { w with mapLayers := w.nextId :: cleared, drawnItems := [], drawnItemsId := w.nextId
           drawControl := true, drawEnabled := true, createdSubs := 0 + 1
           nextId := w.nextId + 1 }

/-- An initialization call of the draw-tools controller. -/
inductive InitCall where
  | basic : String → String → ℚ → InitCall
  | advanced : Nat → InitCall

/-- Run a sequence of initialization calls in order. -/
def runInits (w : WState) (calls : List InitCall) : WState :=
  match calls with
  | [] => w
  | InitCall.basic lc fc lwt :: rest => runInits (initDrawTools lc fc lwt w) rest
  | InitCall.advanced o :: rest => runInits (initDrawToolsAdvanced o w) rest

/-- Whether `pat` is a prefix of `l` (character lists). -/
def leadsWith : List Char → List Char → Bool
  | [], _ => true
  | _ :: _, [] => false
  | p :: ps, c :: cs => p == c && leadsWith ps cs

/-- JS `String.replace(pat, rep)` with a string pattern: replaces the
FIRST occurrence of `pat` only, scanning left to right; the string is
returned unchanged when the pattern does not occur. -/
def replaceFirst (pat rep : List Char) : List Char → List Char
  | [] => []
  | c :: cs =>
    if leadsWith pat (c :: cs) then rep ++ (c :: cs).drop pat.length
    else c :: replaceFirst pat rep cs

/-- Whether `pat` occurs as a contiguous substring of `l`. -/
def containsSub (pat : List Char) (l : List Char) : Bool :=
  match l with
  | [] => leadsWith pat []
  | _ :: cs => leadsWith pat l || containsSub pat cs

/-- The template placeholder for a property name: an opening brace, the
name, a closing brace (the source's template literal around `prop`). -/
def placeholder (prop : List Char) : List Char :=
  Char.ofNat 123 :: (prop ++ [Char.ofNat 125])

/-- The popup-content loop of `addGeoJsonWithPopup`: for each property of
the feature, one `popupContent.replace(placeholder, value)` call. -/
def buildPopupContent (popupTemplate : List Char)
    (properties : List (List Char × List Char)) : List Char :=
  properties.foldl (fun content pv => replaceFirst (placeholder pv.fst) pv.snd content)
    popupTemplate

/-- `addGeoJsonWithPopup(geoJsonData, popupTemplate)` restricted to its
observable popup output: the popup content bound to each feature (given as
its property list); layer creation is delegated to the widget and this
file version keeps no registry. -/
def addGeoJsonWithPopup (geoJsonFeatures : List (List (List Char × List Char)))
    (popupTemplate : List Char) : List (List Char) :=
  geoJsonFeatures.map (fun properties => buildPopupContent popupTemplate properties)

end LeafletWrapper

namespace LeafletCrimesWrapper

theorem runOp_without_map (op : Op) (s : CState) (h : s.map = none) :
    runOp op s = Except.ok (none, s) := by
  cases op <;>
    simp [runOp, addMarker, addCircle, addPolygon, addPolyline, addGeoJson,
      clearMap, fitBounds, setView, h]

/-- C2: every registry operation (addMarker, addCircle, addPolygon,
addPolyline, addGeoJson, clearMap, fitBounds, setView) invoked while the
map widget has not yet been created performs no state change, returns no
handle, and does not throw an exception to the host. -/
theorem not_ready_ops_noop (op : Op) (s : CState) (h : s.map = none) :
    runOp op s = Except.ok (none, s) :=
  runOp_without_map op s h

/-- C2 witness: `setView` before `createMap` is a silent no-op on the
initial state. -/
theorem not_ready_ops_noop_witness :
    runOp (Op.opSetView 1 2 3) initState = Except.ok (none, initState) :=
  not_ready_ops_noop (Op.opSetView 1 2 3) initState rfl

theorem dispose_map_eq_none (s : CState) : (dispose s).map = none := by
  cases h : s.map <;> simp [dispose, h]

/-- C5: after `dispose()` every operation — in particular `addCircle` —
is a no-op: it returns no handle, mutates no state and does not throw;
and `dispose` is idempotent, so the second call also does not throw. -/
theorem dispose_fail_soft (s : CState) (lat lng radius : ℚ)
    (options : List (String × ℚ)) (op : Op) :
    addCircle lat lng radius options (dispose s) = Except.ok (none, dispose s) ∧
    runOp op (dispose s) = Except.ok (none, dispose s) ∧
    dispose (dispose s) = dispose s := by
  refine ⟨?_, runOp_without_map op (dispose s) (dispose_map_eq_none s), ?_⟩
  · have h := dispose_map_eq_none s
    simp [addCircle, h]
  · cases h : s.map <;> simp [dispose, h]

theorem removeAll_subset (ids : List Nat) : ∀ L : List Nat, removeAllLayers L ids ⊆ L := by
  induction ids with
  | nil => intro L; simp [removeAllLayers]
  | cons i rest ih =>
    intro L
    have h : removeAllLayers L (i :: rest) = removeAllLayers (removeLayerId L i) rest := rfl
    rw [h]
    exact (ih _).trans (by simp [removeLayerId, List.filter_subset])

theorem not_mem_removeAll (ids : List Nat) :
    ∀ (L : List Nat) (a : Nat), a ∈ ids → a ∉ removeAllLayers L ids := by
  induction ids with
  | nil => intro L a h; cases h
  | cons i rest ih =>
    intro L a h
    have hstep : removeAllLayers L (i :: rest) = removeAllLayers (removeLayerId L i) rest := rfl
    rw [hstep]
    rcases List.mem_cons.mp h with h1 | h2
    · subst h1
      intro hmem
      have := removeAll_subset rest (removeLayerId L a) hmem
      simp [removeLayerId, List.mem_filter] at this
    · exact ih _ a h2

theorem mem_removeAll (ids : List Nat) :
    ∀ (L : List Nat) (a : Nat), a ∈ L → (∀ i ∈ ids, a ≠ i) →
      a ∈ removeAllLayers L ids := by
  induction ids with
  | nil => intro L a h _; simpa [removeAllLayers] using h
  | cons i rest ih =>
    intro L a hL hne
    have hstep : removeAllLayers L (i :: rest) = removeAllLayers (removeLayerId L i) rest := rfl
    rw [hstep]
    refine ih _ a ?_ ?_
    · simp only [removeLayerId, List.mem_filter, bne_iff_ne]
      exact ⟨hL, hne i (by simp)⟩
    · intro j hj; exact hne j (by simp [hj])

theorem applyAdd_ok (op : AddOp) (s : CState) (h : Inv s) :
    ∃ s2, applyAdd op s = Except.ok s2 ∧ Inv s2 := by
  obtain ⟨m, hm, hmem, hlt, hall⟩ := h
  cases op with
  | marker lat lng p =>
    refine ⟨{ s with
                map := some ({ m with layers := s.nextId :: m.layers })
                markers := s.markers ++ [s.nextId]
                nextId := s.nextId + 1 }, ?_, ?_⟩
    · simp [applyAdd, addMarker, hm, lAddTo, Except.map]
    · refine ⟨{ m with layers := s.nextId :: m.layers }, rfl, by simp [hmem],
        by show m.baseTile < s.nextId + 1; omega, ?_⟩
      intro id hid
      have hcase : id ∈ trackedIds s ∨ id = s.nextId := by
        simp only [trackedIds, List.mem_append, List.mem_singleton] at hid ⊢
        tauto
      show m.baseTile < id
      rcases hcase with h1 | h1
      · exact hall id h1
      · omega
  | circle lat lng r o =>
    refine ⟨{ s with
                map := some ({ m with layers := s.nextId :: m.layers })
                circles := s.circles ++ [s.nextId]
                nextId := s.nextId + 1 }, ?_, ?_⟩
    · simp [applyAdd, addCircle, hm, lAddTo, Except.map]
    · refine ⟨{ m with layers := s.nextId :: m.layers }, rfl, by simp [hmem],
        by show m.baseTile < s.nextId + 1; omega, ?_⟩
      intro id hid
      have hcase : id ∈ trackedIds s ∨ id = s.nextId := by
        simp only [trackedIds, List.mem_append, List.mem_singleton] at hid ⊢
        tauto
      show m.baseTile < id
      rcases hcase with h1 | h1
      · exact hall id h1
      · omega
  | polygon pts o =>
    refine ⟨{ s with
                map := some ({ m with layers := s.nextId :: m.layers })
                polygons := s.polygons ++ [s.nextId]
                nextId := s.nextId + 1 }, ?_, ?_⟩
    · simp [applyAdd, addPolygon, hm, lAddTo, Except.map]
    · refine ⟨{ m with layers := s.nextId :: m.layers }, rfl, by simp [hmem],
        by show m.baseTile < s.nextId + 1; omega, ?_⟩
      intro id hid
      have hcase : id ∈ trackedIds s ∨ id = s.nextId := by
        simp only [trackedIds, List.mem_append, List.mem_singleton] at hid ⊢
        tauto
      show m.baseTile < id
      rcases hcase with h1 | h1
      · exact hall id h1
      · omega
  | polyline pts o =>
    refine ⟨{ s with
                map := some ({ m with layers := s.nextId :: m.layers })
                polylines := s.polylines ++ [s.nextId]
                nextId := s.nextId + 1 }, ?_, ?_⟩
    · simp [applyAdd, addPolyline, hm, lAddTo, Except.map]
    · refine ⟨{ m with layers := s.nextId :: m.layers }, rfl, by simp [hmem],
        by show m.baseTile < s.nextId + 1; omega, ?_⟩
      intro id hid
      have hcase : id ∈ trackedIds s ∨ id = s.nextId := by
        simp only [trackedIds, List.mem_append, List.mem_singleton] at hid ⊢
        tauto
      show m.baseTile < id
      rcases hcase with h1 | h1
      · exact hall id h1
      · omega
  | geoJson g o =>
    refine ⟨{ s with
                map := some ({ m with layers := s.nextId :: m.layers })
                geoJsonLayers := s.geoJsonLayers ++ [s.nextId]
                nextId := s.nextId + 1 }, ?_, ?_⟩
    · simp [applyAdd, addGeoJson, hm, lAddTo, Except.map]
    · refine ⟨{ m with layers := s.nextId :: m.layers }, rfl, by simp [hmem],
        by show m.baseTile < s.nextId + 1; omega, ?_⟩
      intro id hid
      have hcase : id ∈ trackedIds s ∨ id = s.nextId := by
        simp only [trackedIds, List.mem_append, List.mem_singleton] at hid ⊢
        tauto
      show m.baseTile < id
      rcases hcase with h1 | h1
      · exact hall id h1
      · omega

theorem runAdds_ok (ops : List AddOp) :
    ∀ s, Inv s → ∃ s2, runAdds s ops = Except.ok s2 ∧ Inv s2 := by
  induction ops with
  | nil => intro s h; exact ⟨s, rfl, h⟩
  | cons op rest ih =>
    intro s h
    obtain ⟨s1, h1, h2⟩ := applyAdd_ok op s h
    obtain ⟨s2, h3, h4⟩ := ih s1 h2
    exact ⟨s2, by simp [runAdds, h1, h3], h4⟩

theorem createMap_Inv (elementId : String) (lat lng zoom : ℚ) :
    Inv (createMap elementId lat lng zoom initState) := by
  refine ⟨{ baseTile := 0, layers := [0], createdSubs := 0
            view := JView.viewAt (JVal.num lat, JVal.num lng) zoom }, ?_, ?_, ?_, ?_⟩ <;>
    simp [createMap, initState, trackedIds]

/-- C1: for every sequence of add operations followed by `clearMap()`,
every tracked overlay is removed from the map, the base tile layer
remains on the map, and all five tracking lists are empty afterwards.
No operation throws. -/
theorem clearMap_removes_tracked (elementId : String) (lat lng zoom : ℚ)
    (ops : List AddOp) :
    ∃ s1 s2 m2,
      runAdds (createMap elementId lat lng zoom initState) ops = Except.ok s1 ∧
      clearMap s1 = Except.ok (none, s2) ∧
      s2.markers = [] ∧ s2.circles = [] ∧ s2.polygons = [] ∧
      s2.polylines = [] ∧ s2.geoJsonLayers = [] ∧
      s2.map = some m2 ∧ m2.baseTile ∈ m2.layers ∧
      ∀ id ∈ trackedIds s1, id ∉ m2.layers := by
  obtain ⟨s1, hrun, hInv1⟩ := runAdds_ok ops _ (createMap_Inv elementId lat lng zoom)
  obtain ⟨m, hm, hmem, hlt, hall⟩ := hInv1
  refine ⟨s1,
    { s1 with
        map := some ({ m with layers := removeAllLayers m.layers (trackedIds s1) })
        markers := []
        circles := []
        polygons := []
        polylines := []
        geoJsonLayers := [] },
    { m with layers := removeAllLayers m.layers (trackedIds s1) },
    hrun, by simp [clearMap, hm], rfl, rfl, rfl, rfl, rfl, rfl, ?_, ?_⟩
  · exact mem_removeAll _ _ _ hmem (fun i hi => (hall i hi).ne)
  · intro id hid
    exact not_mem_removeAll _ _ _ hid

theorem iterate_initDrawTools_subs (lc fc : String) (lwt : ℚ) :
    ∀ (n : Nat) (s : CState) (m : LMapObj), s.map = some m →
      createdSubsCount (Nat.iterate (initDrawTools lc fc lwt) n s) = m.createdSubs + n := by
  intro n
  induction n with
  | zero => intro s m hm; simp [createdSubsCount, hm]
  | succ k ih =>
    intro s m hm
    rw [Function.iterate_succ_apply]
    have hstep : (initDrawTools lc fc lwt s).map =
        some ({ m with
                  layers := s.nextId :: m.layers
                  createdSubs := m.createdSubs + 1 }) := by
      simp [initDrawTools, hm]
    rw [ih _ _ hstep]
    show m.createdSubs + 1 + k = m.createdSubs + (k + 1)
    omega

theorem fireCreated_appends_once (s : CState) (m : LMapObj) (g : List (Nat × Nat))
    (layer : Nat × Nat) (hm : s.map = some m) (hg : s.drawnItems = some g)
    (hs : 1 ≤ m.createdSubs) (hfresh : layer.fst ∉ g.map Prod.fst) :
    (fireCreated layer s).drawnItems = some (g ++ [layer]) := by
  have hany : (g.any fun x => x.fst == layer.fst) = false := by
    cases h : g.any (fun x => x.fst == layer.fst)
    · rfl
    · exfalso
      obtain ⟨x, hx, he⟩ := List.any_eq_true.mp h
      exact hfresh (List.mem_map.mpr ⟨x, hx, beq_iff_eq.mp he⟩)
  have h1 : fgAddLayer g layer = g ++ [layer] := by
    simp [fgAddLayer, hany]
  have h2 : fgAddLayer (g ++ [layer]) layer = g ++ [layer] := by
    have : ((g ++ [layer]).any fun x => x.fst == layer.fst) = true :=
      List.any_eq_true.mpr ⟨layer, by simp, by simp⟩
    simp [fgAddLayer, this]
  obtain ⟨k, hk⟩ : ∃ k, m.createdSubs = k + 1 := ⟨m.createdSubs - 1, by omega⟩
  simp only [fireCreated, hm, hg, hk]
  rw [Function.iterate_succ_apply, h1]
  have h3 : ∀ a : List (Nat × Nat), fgAddLayer a layer = a →
      (fun h => fgAddLayer h layer)^[k] a = a :=
    fun a ha =>
      @Function.iterate_fixed (List (Nat × Nat)) (fun h => fgAddLayer h layer) a ha k
  rw [h3 (g ++ [layer]) h2]

theorem runInits_subs_le (calls : List LeafletWrapper.InitCall) :
    ∀ w : LeafletWrapper.WState, w.createdSubs ≤ 1 →
      (LeafletWrapper.runInits w calls).createdSubs ≤ 1 := by
  induction calls with
  | nil => intro w h; exact h
  | cons c rest ih =>
    intro w h
    cases c with
    | basic lc fc lwt =>
      exact ih _ (by simp [LeafletWrapper.initDrawTools])
    | advanced o =>
      exact ih _ (by simp [LeafletWrapper.initDrawToolsAdvanced])

/-- C3 (amended): in `leafletWrapper.js` every (re-)initialization of the
draw tools runs `map.off` before `map.on`, so at most one draw-created
subscription is ever active; in `leafletCrimesWrapper.js`, however, each
`initDrawTools` call registers an additional handler without removing the
previous ones, so after n calls on a live map n handlers are active —
yet a completed drawing still appends exactly one layer to the current
drawn-items group, because every handler adds the same layer to the same
group and group insertion is idempotent per layer id. -/
theorem draw_created_subscriptions :
    (∀ (w : LeafletWrapper.WState) (calls : List LeafletWrapper.InitCall),
      w.createdSubs ≤ 1 → (LeafletWrapper.runInits w calls).createdSubs ≤ 1) ∧
    (∀ (lc fc : String) (lwt : ℚ) (n : Nat) (s : CState) (m : LMapObj),
      s.map = some m →
      createdSubsCount (Nat.iterate (initDrawTools lc fc lwt) n s) = m.createdSubs + n) ∧
    (∀ (s : CState) (m : LMapObj) (g : List (Nat × Nat)) (layer : Nat × Nat),
      s.map = some m → s.drawnItems = some g → 1 ≤ m.createdSubs →
      layer.fst ∉ g.map Prod.fst →
      (fireCreated layer s).drawnItems = some (g ++ [layer])) :=
  ⟨fun w calls h => runInits_subs_le calls w h,
   fun lc fc lwt n s m hm => iterate_initDrawTools_subs lc fc lwt n s m hm,
   fun s m g layer hm hg hs hf => fireCreated_appends_once s m g layer hm hg hs hf⟩

/-- A live map state with one draw-created handler and an empty drawn-items
group, used to exercise the drawing-event behaviour on concrete input. -/
def drawnFireState : CState :=
  { initState with
      map := some ({ baseTile := 0, layers := [0], createdSubs := 2
                     view := JView.viewAt (JVal.num 0, JVal.num 0) 13 })
      drawnItems := some []
      nextId := 1 }

/-- C3 witness: one init call in `leafletWrapper.js` leaves one handler;
two init calls in `leafletCrimesWrapper.js` leave two handlers; a draw
event with two handlers still appends the layer once. -/
theorem draw_created_subscriptions_witness :
    (LeafletWrapper.runInits LeafletWrapper.initState
      [LeafletWrapper.InitCall.basic "#3388ff" "#3388ff" 2]).createdSubs ≤ 1 ∧
    createdSubsCount (Nat.iterate (initDrawTools "#3388ff" "#3388ff" 2) 2
      (createMap "map" 0 0 13 initState)) = 0 + 2 ∧
    (fireCreated (5, 9) drawnFireState).drawnItems = some ([] ++ [(5, 9)]) :=
  ⟨draw_created_subscriptions.1 LeafletWrapper.initState _ (by decide),
   draw_created_subscriptions.2.1 "#3388ff" "#3388ff" 2 2
     (createMap "map" 0 0 13 initState)
     ({ baseTile := 0, layers := [0], createdSubs := 0
        view := JView.viewAt (JVal.num 0, JVal.num 0) 13 }) (by decide),
   draw_created_subscriptions.2.2 drawnFireState
     ({ baseTile := 0, layers := [0], createdSubs := 2
        view := JView.viewAt (JVal.num 0, JVal.num 0) 13 }) [] (5, 9)
     (by decide) (by decide) (by decide) (by decide)⟩

/-- C3 counterexample: in `leafletCrimesWrapper.js`, two `initDrawTools`
calls on a freshly created map leave two active draw-created
subscriptions, refuting "at most one subscription is active at any
time". -/
theorem draw_created_subscriptions_cex :
    ¬ createdSubsCount
        (initDrawTools "#3388ff" "#3388ff" 2
          (initDrawTools "#3388ff" "#3388ff" 2
            (createMap "map" 0 0 13 initState))) ≤ 1 := by
  decide

/-- A freshly created map state used to exercise `fitBounds` and
`setView` on concrete input. -/
def wState0 : CState := createMap "map" 0 0 13 initState

/-- The map object inside `wState0`. -/
def wMap0 : LMapObj :=
  { baseTile := 0, layers := [0], createdSubs := 0
    view := JView.viewAt (JVal.num 0, JVal.num 0) 13 }

/-- C4 (amended): `fitBounds` rejects every bounds argument failing the
2-by-2 array shape test with a logged error and no other state change, and
likewise rejects shape-valid bounds containing a NaN coordinate whose
corners are not strictly equal; but a bounds whose two corners compare
strictly equal component-wise — whether numeric or not — is handled by
the earlier degenerate-point branch, which recenters via `setView` at the
fixed zoom 10 instead of rejecting (see C9 for the non-numeric leak). -/
theorem fitBounds_validation (s : CState) (m : LMapObj)
    (bounds : Option (List BElem)) (hm : s.map = some m) :
    (boundsShapeValid bounds = false →
      fitBounds bounds s = Except.ok (none, logError s)) ∧
    (∀ p q r t, bounds = some [BElem.arr [p, q], BElem.arr [r, t]] →
      (jsStrictEq p r && jsStrictEq q t) = true →
      fitBounds bounds s = Except.ok (none, mapSetViewRaw s (p, q) 10)) ∧
    (∀ p q r t, bounds = some [BElem.arr [p, q], BElem.arr [r, t]] →
      (jsStrictEq p r && jsStrictEq q t) = false →
      (jsIsNaN p || jsIsNaN q || jsIsNaN r || jsIsNaN t) = true →
      fitBounds bounds s = Except.ok (none, logError s)) := by
  refine ⟨?_, ?_, ?_⟩
  · intro hshape
    simp only [fitBounds, hm]
    split
    · simp [boundsShapeValid] at hshape
    · rfl
  · intro p q r t heq hstrict
    subst heq
    simp [fitBounds, hm, hstrict]
  · intro p q r t heq hstrict hnan
    subst heq
    simp [fitBounds, hm, hstrict, hnan]

/-- C4 witness: the spec's malformed example `[[1,1],[2]]` is rejected
with a logged error; the degenerate numeric point `[[1,1],[1,1]]`
recenters at zoom 10; a NaN corner is rejected with a logged error. -/
theorem fitBounds_validation_witness :
    fitBounds (some [BElem.arr [JVal.num 1, JVal.num 1], BElem.arr [JVal.num 2]])
        wState0 = Except.ok (none, logError wState0) ∧
    fitBounds (some [BElem.arr [JVal.num 1, JVal.num 1],
        BElem.arr [JVal.num 1, JVal.num 1]]) wState0 =
      Except.ok (none, mapSetViewRaw wState0 (JVal.num 1, JVal.num 1) 10) ∧
    fitBounds (some [BElem.arr [JVal.nan, JVal.num 0],
        BElem.arr [JVal.num 1, JVal.num 0]]) wState0 =
      Except.ok (none, logError wState0) :=
  ⟨(fitBounds_validation wState0 wMap0 _ (by decide)).1 (by decide),
   (fitBounds_validation wState0 wMap0 _ (by decide)).2.1
     (JVal.num 1) (JVal.num 1) (JVal.num 1) (JVal.num 1) rfl (by decide),
   (fitBounds_validation wState0 wMap0 _ (by decide)).2.2
     (JVal.nan) (JVal.num 0) (JVal.num 1) (JVal.num 0) rfl (by decide) (by decide)⟩

/-- C4 counterexample: the bounds `[["a","b"],["a","b"]]` is malformed
(non-numeric coordinates), yet `fitBounds` neither leaves the state
unchanged nor logs an error: it recenters the map on the string pair at
zoom 10, refuting the claim as stated. -/
theorem fitBounds_validation_cex :
    fitBounds (some [BElem.arr [JVal.str "a", JVal.str "b"],
        BElem.arr [JVal.str "a", JVal.str "b"]]) wState0 =
      Except.ok (none, mapSetViewRaw wState0 (JVal.str "a", JVal.str "b") 10) ∧
    mapSetViewRaw wState0 (JVal.str "a", JVal.str "b") 10 ≠ wState0 ∧
    mapSetViewRaw wState0 (JVal.str "a", JVal.str "b") 10 ≠ logError wState0 ∧
    (mapSetViewRaw wState0 (JVal.str "a", JVal.str "b") 10).consoleErrors =
      wState0.consoleErrors := by
  refine ⟨by decide, by decide, by decide, by decide⟩

/-- C9: in the validating `fitBounds`, the degenerate single-point check
runs before the numeric check, so bounds `[[a,b],[a,b]]` whose corners
compare strictly equal but are non-numeric (such as equal strings) reach
`setView` at zoom 10 — a state change without a logged error — instead
of being rejected. -/
theorem fitBounds_degenerate_nonnumeric (s : CState) (m : LMapObj) (a b : JVal)
    (hm : s.map = some m)
    (hsa : jsStrictEq a a = true) (hsb : jsStrictEq b b = true)
    (hna : jsToNumber a = none) (hnb : jsToNumber b = none) :
    fitBounds (some [BElem.arr [a, b], BElem.arr [a, b]]) s =
      Except.ok (none, mapSetViewRaw s (a, b) 10) ∧
    (mapSetViewRaw s (a, b) 10).consoleErrors = s.consoleErrors := by
  constructor
  · simp [fitBounds, hm, hsa, hsb]
  · simp [mapSetViewRaw, hm]

/-- C9 witness: equal string corners `[["a","b"],["a","b"]]` make
`fitBounds` call `setView` at zoom 10 with no error logged. -/
theorem fitBounds_degenerate_nonnumeric_witness :
    fitBounds (some [BElem.arr [JVal.str "a", JVal.str "b"],
        BElem.arr [JVal.str "a", JVal.str "b"]]) wState0 =
      Except.ok (none, mapSetViewRaw wState0 (JVal.str "a", JVal.str "b") 10) ∧
    (mapSetViewRaw wState0 (JVal.str "a", JVal.str "b") 10).consoleErrors =
      wState0.consoleErrors :=
  fitBounds_degenerate_nonnumeric wState0 wMap0 (JVal.str "a") (JVal.str "b")
    (by decide) (by decide) (by decide) (by decide) (by decide)

theorem lGeoJSON_map_snd (geoms : List Nat) :
    ∀ start, (lGeoJSON geoms start).map Prod.snd = geoms := by
  induction geoms with
  | nil => intro start; simp [lGeoJSON]
  | cons g gs ih => intro start; simp [lGeoJSON, ih]

theorem lGeoJSON_length (geoms : List Nat) :
    ∀ start, (lGeoJSON geoms start).length = geoms.length := by
  induction geoms with
  | nil => intro start; simp [lGeoJSON]
  | cons g gs ih => intro start; simp [lGeoJSON, ih]

theorem foldl_fgAddLayer_fresh (geoms : List Nat) :
    ∀ (g : List (Nat × Nat)) (start : Nat), (∀ p ∈ g, p.fst < start) →
      (lGeoJSON geoms start).foldl fgAddLayer g = g ++ lGeoJSON geoms start := by
  induction geoms with
  | nil => intro g start hb; simp [lGeoJSON]
  | cons a as ih =>
    intro g start hb
    have hany : (g.any fun x => x.fst == start) = false := by
      cases h : g.any (fun x => x.fst == start)
      · rfl
      · exfalso
        obtain ⟨x, hx, he⟩ := List.any_eq_true.mp h
        have := hb x hx
        rw [beq_iff_eq.mp he] at this
        omega
    have hadd : fgAddLayer g (start, a) = g ++ [(start, a)] := by
      simp [fgAddLayer, hany]
    have hb2 : ∀ p ∈ g ++ [(start, a)], p.fst < start + 1 := by
      intro p hp
      rcases List.mem_append.mp hp with h1 | h1
      · exact Nat.lt_succ_of_lt (hb p h1)
      · simp at h1
        simp [h1]
    calc (lGeoJSON (a :: as) start).foldl fgAddLayer g
      = (lGeoJSON as (start + 1)).foldl fgAddLayer (fgAddLayer g (start, a)) := rfl
    _ = (lGeoJSON as (start + 1)).foldl fgAddLayer (g ++ [(start, a)]) := by rw [hadd]
    _ = (g ++ [(start, a)]) ++ lGeoJSON as (start + 1) := ih _ _ hb2
    _ = g ++ lGeoJSON (a :: as) start := by simp [lGeoJSON]

/-- C7: exporting the drawn-items group with `getDrawnGeoJson` and feeding
the result back through `addDrawnFromGeoJson` merges the re-imported
copies into the group without clearing it: a group of N drawn features
ends up with 2N tracked features — the originals followed by fresh layers
carrying the same geometries. -/
theorem drawn_geojson_roundtrip (s : CState) (g : List (Nat × Nat))
    (hd : s.drawnItems = some g) (hb : ∀ p ∈ g, p.fst < s.nextId) :
    ∃ gj g2,
      getDrawnGeoJson s = some gj ∧
      (addDrawnFromGeoJson gj s).drawnItems = some g2 ∧
      g2 = g ++ lGeoJSON gj s.nextId ∧
      g2.length = 2 * g.length ∧
      g2.map Prod.snd = g.map Prod.snd ++ g.map Prod.snd := by
  refine ⟨g.map Prod.snd, g ++ lGeoJSON (g.map Prod.snd) s.nextId,
    by simp [getDrawnGeoJson, hd], ?_, rfl, ?_, ?_⟩
  · simp [addDrawnFromGeoJson, hd, foldl_fgAddLayer_fresh _ _ _ hb]
  · simp [lGeoJSON_length]
    omega
  · simp [lGeoJSON_map_snd]

/-- A state with two drawn features, used to run the round trip on
concrete input. -/
def drawnTwoState : CState :=
  { initState with
      map := some ({ baseTile := 0, layers := [0, 3, 4]
                     createdSubs := 1
                     view := JView.viewAt (JVal.num 0, JVal.num 0) 13 })
      drawnItems := some [(3, 21), (4, 22)]
      nextId := 5 }

/-- C7 witness: with two drawn features the round trip yields four tracked
features, the originals plus fresh copies of the same geometries. -/
theorem drawn_geojson_roundtrip_witness :
    ∃ gj g2,
      getDrawnGeoJson drawnTwoState = some gj ∧
      (addDrawnFromGeoJson gj drawnTwoState).drawnItems = some g2 ∧
      g2 = [(3, 21), (4, 22)] ++ lGeoJSON gj drawnTwoState.nextId ∧
      g2.length = 2 * [(3, 21), (4, 22)].length ∧
      g2.map Prod.snd =
        [(3, 21), (4, 22)].map Prod.snd ++ [(3, 21), (4, 22)].map Prod.snd :=
  drawn_geojson_roundtrip drawnTwoState [(3, 21), (4, 22)] (by decide) (by decide)

theorem jsFmod_nonneg_lt (a b : ℝ) (hb : 0 < b) (ha : 0 ≤ a / b) :
    0 ≤ jsFmod a b ∧ jsFmod a b < b := by
  rw [jsFmod, if_pos ha]
  have hbne : b ≠ 0 := ne_of_gt hb
  have hfr : a - b * (⌊a / b⌋ : ℝ) = b * Int.fract (a / b) := by
    rw [Int.fract]
    field_simp
  rw [hfr]
  constructor
  · exact mul_nonneg hb.le (Int.fract_nonneg _)
  · calc b * Int.fract (a / b) < b * 1 :=
        mul_lt_mul_of_pos_left (Int.fract_lt_one _) hb
    _ = b := mul_one b

theorem atan2_bearing_range (y x : ℝ) :
    0 ≤ jsFmod (atan2 y x * 180 / Real.pi + 360) 360 ∧
    jsFmod (atan2 y x * 180 / Real.pi + 360) 360 < 360 := by
  have hpi := Real.pi_pos
  have hgt : -Real.pi < atan2 y x := Complex.neg_pi_lt_arg _
  have h1 : -180 < atan2 y x * 180 / Real.pi := by
    rw [lt_div_iff₀ hpi]
    nlinarith
  have hpos : 0 < atan2 y x * 180 / Real.pi + 360 := by linarith
  exact jsFmod_nonneg_lt _ 360 (by norm_num) (div_nonneg hpos.le (by norm_num))

/-- C6: for every pair of geographic points, `calculateBearing` returns a
value in the half-open interval [0, 360): the atan2 result is converted to
degrees, 360 is added, and the JS modulo 360 of the (positive) sum lies in
[0, 360). -/
theorem calculateBearing_range (fromLat fromLng toLat toLng : ℝ) :
    0 ≤ calculateBearing fromLat fromLng toLat toLng ∧
    calculateBearing fromLat fromLng toLat toLng < 360 := by
  unfold calculateBearing
  exact atan2_bearing_range _ _

theorem atan2_zero_zero : atan2 0 0 = 0 := by
  unfold atan2
  have h : (⟨0, 0⟩ : ℂ) = 0 := by
    apply Complex.ext <;> simp
  rw [h, Complex.arg_zero]

theorem jsFmod_360_360 : jsFmod 360 360 = 0 := by
  have h : (360 : ℝ) / 360 = 1 := by norm_num
  rw [jsFmod, h, if_pos (by norm_num : (0:ℝ) ≤ 1)]
  simp

/-- C8: for every point, `calculateBearing` of the point with itself is
exactly 0 — the formula degenerates to `atan2(0, 0) = 0` with no special
case, and the normalization maps it to 0. -/
theorem calculateBearing_identical (lat lng : ℝ) :
    calculateBearing lat lng lat lng = 0 := by
  simp only [calculateBearing, sub_self, zero_mul, zero_div, Real.sin_zero,
    Real.cos_zero, mul_one, mul_zero]
  have hx : Real.cos (lat * Real.pi / 180) * Real.sin (lat * Real.pi / 180) -
      Real.sin (lat * Real.pi / 180) * Real.cos (lat * Real.pi / 180) = 0 := by
    ring
  rw [hx, atan2_zero_zero]
  norm_num [jsFmod_360_360]

end LeafletCrimesWrapper

namespace LeafletWrapper

theorem leadsWith_append_self (p : List Char) : ∀ t, leadsWith p (p ++ t) = true := by
  induction p with
  | nil => intro t; rfl
  | cons c cs ih => intro t; simp [leadsWith, ih]

theorem replaceFirst_at_first (pat rep : List Char) (hne : pat ≠ []) :
    ∀ (a b : List Char),
      (∀ i, i < a.length → leadsWith pat ((a ++ pat ++ b).drop i) = false) →
      replaceFirst pat rep (a ++ pat ++ b) = a ++ rep ++ b := by
  intro a
  induction a with
  | nil =>
    intro b h
    obtain ⟨c, ps, hcp⟩ : ∃ c ps, pat = c :: ps := by
      cases pat with
      | nil => exact absurd rfl hne
      | cons c ps => exact ⟨c, ps, rfl⟩
    subst hcp
    simp only [List.nil_append]
    have hl : leadsWith (c :: ps) (c :: (ps ++ b)) = true := by
      have := leadsWith_append_self (c :: ps) b
      simpa [List.cons_append] using this
    rw [List.cons_append, replaceFirst, if_pos hl]
    rw [List.length_cons, List.drop_succ_cons, List.drop_left]
  | cons c a2 ih =>
    intro b h
    have h0 : leadsWith pat (c :: (a2 ++ pat ++ b)) = false := by
      have := h 0 (by simp)
      simpa [List.cons_append] using this
    have h2 : ∀ i, i < a2.length → leadsWith pat ((a2 ++ pat ++ b).drop i) = false := by
      intro i hi
      have := h (i + 1) (by simp; omega)
      simpa [List.cons_append, List.drop_succ_cons] using this
    have e1 : (c :: a2) ++ pat ++ b = c :: (a2 ++ pat ++ b) := by simp
    have h0r : leadsWith pat (c :: (a2 ++ (pat ++ b))) = false := by
      simpa [List.append_assoc] using h0
    rw [e1, replaceFirst, if_neg (by simp [h0r]), ih b h2]
    simp

theorem containsSub_append_left (pat t : List Char) (h : containsSub pat t = true) :
    ∀ s, containsSub pat (s ++ t) = true := by
  intro s
  induction s with
  | nil => simpa using h
  | cons c cs ih => simp [containsSub, List.cons_append, ih]

/-- C10: in `addGeoJsonWithPopup` with a popup template, each property
substitution replaces only the FIRST occurrence of its placeholder (JS
`String.replace` with a string pattern); any later occurrence of the same
placeholder is left verbatim — hence unresolved — in the popup
content. -/
theorem addGeoJsonWithPopup_first_only (p v a b : List Char)
    (hfirst : ∀ i, i < a.length →
      leadsWith (placeholder p) ((a ++ placeholder p ++ b).drop i) = false) :
    addGeoJsonWithPopup [[(p, v)]] (a ++ placeholder p ++ b) = [a ++ v ++ b] ∧
    (containsSub (placeholder p) b = true →
      containsSub (placeholder p) (a ++ v ++ b) = true) := by
  constructor
  · have hne : placeholder p ≠ [] := by simp [placeholder]
    have hrw := replaceFirst_at_first (placeholder p) v hne a b hfirst
    simp only [List.append_assoc] at hrw
    simp [addGeoJsonWithPopup, buildPopupContent, hrw]
  · intro h
    have := containsSub_append_left (placeholder p) b h (a ++ v)
    simpa [List.append_assoc] using this

/-- C10 witness: the template "A{x}{x}B" with property x mapped to "1"
renders as "A1{x}B" — the second `{x}` stays unresolved. -/
theorem addGeoJsonWithPopup_first_only_witness :
    addGeoJsonWithPopup [[(['x'], ['1'])]]
        (['A'] ++ placeholder ['x'] ++ (placeholder ['x'] ++ ['B'])) =
      [['A'] ++ ['1'] ++ (placeholder ['x'] ++ ['B'])] ∧
    (containsSub (placeholder ['x']) (placeholder ['x'] ++ ['B']) = true →
      containsSub (placeholder ['x'])
        (['A'] ++ ['1'] ++ (placeholder ['x'] ++ ['B'])) = true) :=
  addGeoJsonWithPopup_first_only ['x'] ['1'] ['A'] (placeholder ['x'] ++ ['B'])
    (by decide)

end LeafletWrapper
